import Mathlib

/-! Verification of the LinkedIn job-tracker browser extension.

The development shallowly embeds the content script (scraper, submitter
click-handler, injector scan) of the extension.  DOM queries are modelled
abstractly: a `Document` answers `querySelector` calls with the text content
of the first matching element (`none` when no element matches), and the
injector works over the list of apply affordances returned by
`findApplyButtons` together with the container each one resolves to.  All
string manipulation (trimming, truncation, query stripping) follows the
JavaScript source operation by operation. -/

namespace JobTracker

/-- A rendered document, modelled by its `querySelector` behaviour: for a CSS
selector string, `query` returns the text content of the first matching
element, or `none` when no element matches. -/
structure Document where
  query : String → Option String

/-- The ordered title selector fallback chain of `scrapeJobData`. -/
def titleSelectors : List String :=
  [".job-details-jobs-unified-top-card__job-title h1",
   ".jobs-unified-top-card__job-title",
   ".job-details-jobs-unified-top-card__job-title",
   "h1.t-24",
   "h1"]

/-- The ordered company selector fallback chain of `scrapeJobData`. -/
def companySelectors : List String :=
  [".job-details-jobs-unified-top-card__company-name a",
   ".jobs-unified-top-card__company-name a",
   ".job-details-jobs-unified-top-card__company-name",
   ".jobs-unified-top-card__company-name"]

/-- The ordered description selector fallback chain of `scrapeJobData`. -/
def descriptionSelectors : List String :=
  [".jobs-description__content .jobs-box__html-content",
   ".jobs-description-content__text",
   "#job-details"]

/-- First-match-wins evaluation of a selector fallback chain, mirroring the
chained `querySelector(...) || querySelector(...)` expressions. -/
def queryChain (d : Document) : List String → Option String
  | [] => none
  | sel :: rest =>
    match d.query sel with
    | some t => some t
    | none => queryChain d rest

/-- Whitespace predicate of JavaScript `String.prototype.trim`. -/
def isJsSpace (c : Char) : Bool :=
  c == ' ' || c == '\t' || c == '\n' || c == '\r' || c == '\x0b' || c == '\x0c' ||
  c == '\u00A0' || c == '\u2028' || c == '\u2029' || c == '\uFEFF'

/-- JavaScript `textContent.trim()`: strip whitespace from both ends. -/
def jsTrim (s : String) : String :=
  String.mk (((s.data.dropWhile isJsSpace).reverse.dropWhile isJsSpace).reverse)

/-- Description truncation of `scrapeJobData`:
`fullDesc.length > 200 ? fullDesc.substring(0, 200) + "…" : fullDesc`. -/
def truncateDescription (fullDesc : String) : String :=
  if fullDesc.length > 200 then fullDesc.take 200 ++ "…" else fullDesc

/-- The page address, as the content script reads it: `window.location.href`
as a raw string, and `window.location.search` already parsed the way
`URLSearchParams` exposes it, as an ordered list of decoded key-value
pairs. -/
structure Location where
  href : String
  params : List (String × String)

/-- `URLSearchParams.get`: value of the first pair with the given key, or
`none` (JavaScript `null`) when the key is absent. -/
def urlParamsGet (ps : List (String × String)) (key : String) : Option String :=
  match ps.find? (fun p => p.1 == key) with
  | some p => some p.2
  | none => none

/-- `window.location.href.split("?")[0]`: the prefix before the first
question mark (the whole string when there is none). -/
def stripQuery (href : String) : String :=
  String.mk (href.data.takeWhile (fun c => c != '?'))

/-- The canonical per-job deep link synthesized from a job identifier. -/
def jobsViewUrl (jobId : String) : String :=
  "https://www.linkedin.com/jobs/view/" ++ jobId ++ "/"

/-- URL derivation of `scrapeJobData`: strip the query string; when the
`currentJobId` query parameter is present and truthy (non-empty), use the
synthesized deep link instead. -/
def scrapeUrl (loc : Location) : String :=
  let url := stripQuery loc.href
  match urlParamsGet loc.params ("currentJobId") with
  | some jobId => if jobId = "" then url else jobsViewUrl jobId
  | none => url

/-- The scraped job record POSTed to the backend. -/
structure JobRecord where
  job_title : String
  company : String
  description : String
  url : String
deriving DecidableEq, Repr

/-- `scrapeJobData` of the content script: resolve title, company and
description through their fallback chains (sentinels `"Unknown Position"`,
`"Unknown Company"` and `""` when nothing matches), truncate the
description, and derive the URL. -/
def scrapeJobData (d : Document) (loc : Location) : JobRecord :=
  let job_title :=
    match queryChain d titleSelectors with
    | some t => jsTrim t
    | none => "Unknown Position"
  let company :=
    match queryChain d companySelectors with
    | some t => jsTrim t
    | none => "Unknown Company"
  let fullDesc :=
    match queryChain d descriptionSelectors with
    | some t => jsTrim t
    | none => ""
  { job_title := job_title, company := company,
    description := truncateDescription fullDesc, url := scrapeUrl loc }

/-- Feedback kinds passed to `showFeedback` (the `type` argument). -/
inductive FeedbackType where
  | success
  | warning
  | error
deriving DecidableEq, Repr

/-- The string the source interpolates into the CSS class template. -/
def FeedbackType.str : FeedbackType → String
  | FeedbackType.success => "success"
  | FeedbackType.warning => "warning"
  | FeedbackType.error => "error"

/-- The comparison `type === "success"` of `showFeedback`. -/
def FeedbackType.isSuccess : FeedbackType → Bool
  | FeedbackType.success => true
  | _ => false

/-- `classList.add`: append the token unless already present. -/
def classListAdd (cs : List String) (c : String) : List String :=
  if c ∈ cs then cs else cs ++ [c]

/-- `classList.remove`: drop every occurrence of the token. -/
def classListRemove (cs : List String) (c : String) : List String :=
  cs.filter (fun x => x != c)

/-- The state of one injected tracking control.  `label` stands for the
button's rendered content (`textContent`/`innerHTML`), `tracked` for
`dataset.tracked === "true"`, and `originalHTML`/`originalText` for the
expando properties of the same names (absent on a plain element). -/
structure ButtonState where
  label : String
  classes : List String
  disabled : Bool
  tracked : Bool
  originalHTML : Option String
  originalText : Option String
deriving DecidableEq, Repr

/-- The hard-coded initial markup of an injected control. -/
def defaultTrackLabel : String := "<span>+</span> Track"

/-- JavaScript `button.originalHTML || '<span>+</span> Track'`: the fallback
fires when the property is absent or the empty string (falsy). -/
def origOrDefault (o : Option String) : String :=
  match o with
  | some s => if s = "" then defaultTrackLabel else s
  | none => defaultTrackLabel

/-- The body of the revert `setTimeout` callback of `showFeedback`, applied
to the control's state at firing time: the callback captures the element,
not its state, and its handle is discarded — no `clearTimeout` exists in
the script, so an armed revert always fires, on whatever state the control
has then. -/
def revertFire (ty : FeedbackType) (b : ButtonState) : ButtonState :=
  { b with label := origOrDefault b.originalHTML,
           classes := classListRemove b.classes ("jt-" ++ ty.str),
           disabled := false }

/-- `showFeedback(button, text, type)`: the immediate button state, paired
with the revert timer it schedules for warning and error — `some (2500, r)`
where `r` is the revert callback's result on the state as of this call —
and `none` for success. -/
def showFeedback (b : ButtonState) (text : String) (ty : FeedbackType) :
    ButtonState × Option (Nat × ButtonState) :=
  let b1 : ButtonState :=
    { b with label := text,
             classes := classListAdd b.classes ("jt-" ++ ty.str),
             disabled := ty.isSuccess }
  if ty.isSuccess then (b1, none)
  else
    (b1, some (2500, revertFire ty b1))

/-- Firing a queue of still-pending revert timers, in firing order, on a
control: each stale callback acts on the then-current state. -/
def firePending : List FeedbackType → ButtonState → ButtonState
  | [], b => b
  | ty :: rest, b => firePending rest (revertFire ty b)

/-- `createButton()`: the control as the injector creates it (the generated
id and the click listener are not part of the state). -/
def createButton : ButtonState :=
  { label := defaultTrackLabel,
    classes := ["jt-track-btn", "artdeco-button", "artdeco-button--2",
                "artdeco-button--secondary"],
    disabled := false,
    tracked := false,
    originalHTML := some defaultTrackLabel,
    originalText := none }

/-- A decoded JSON error body, modelled as a flat object of string fields;
`[]` is the empty object the catch-handler substitutes. -/
abbrev JsonObj := List (String × String)

/-- The outcome of the `fetch` call as `trackJob` observes it: an HTTP
response with its `ok` flag and its best-effort JSON-decoded body (`none`
when `res.json()` rejects), or a thrown network exception. -/
inductive FetchOutcome where
  | response (ok : Bool) (jsonBody : Option JsonObj)
  | networkError
deriving DecidableEq, Repr

/-- Everything one `trackJob` run does: the POST it issues (`none` when the
guards reject), the button state when the handler finishes, the revert
timer scheduled by `showFeedback`, and the error object it logs. -/
structure TrackResult where
  posted : Option (String × JobRecord)
  button : ButtonState
  revert : Option (Nat × ButtonState)
  logged : Option JsonObj
deriving DecidableEq, Repr

/-- `getApiUrl()`: `result.apiBaseUrl || ""` over the settings store. -/
def getApiUrl (stored : Option String) : String :=
  match stored with
  | some s => s
  | none => ""

/-- The `trackJob` click handler: guard on a configured API URL, scrape and
guard on a usable title, then POST and map the fetch outcome to feedback.
The fetch outcome is an explicit input so the handler is a function. -/
def trackJob (apiUrl : String) (d : Document) (loc : Location)
    (fetch : FetchOutcome) (b : ButtonState) : TrackResult :=
  if apiUrl = "" then
    let fb := showFeedback b ("⚙️ Set API URL") FeedbackType.warning
    { posted := none, button := fb.1, revert := fb.2, logged := none }
  else
    let jobData := scrapeJobData d loc
    if jobData.job_title = "" ∨ jobData.job_title = "Unknown Position" then
      let fb := showFeedback b ("⚠️ Can\u0027t read job") FeedbackType.warning
      { posted := none, button := fb.1, revert := fb.2, logged := none }
    else
      let b1 : ButtonState :=
        { b with disabled := true, originalText := some b.label,
                 label := "⏳ Saving..." }
      match fetch with
      | FetchOutcome.response true _ =>
        let fb := showFeedback b1 ("✅ Tracked!") FeedbackType.success
        { posted := some (apiUrl ++ "/api/jobs", jobData),
          button := { fb.1 with tracked := true },
          revert := fb.2, logged := none }
      | FetchOutcome.response false jsonBody =>
        let fb := showFeedback b1 ("❌ Failed") FeedbackType.error
        { posted := some (apiUrl ++ "/api/jobs", jobData),
          button := fb.1, revert := fb.2,
          logged := some (jsonBody.getD []) }
      | FetchOutcome.networkError =>
        let fb := showFeedback b1 ("❌ Error") FeedbackType.error
        { posted := some (apiUrl ++ "/api/jobs", jobData),
          button := fb.1, revert := fb.2, logged := none }

/-- The injector-relevant DOM state: which affordance elements carry the
`data-jt-processed` marker, and, one entry per injected control, the
container it sits in (`querySelector` over a container finds a control
exactly when the container is listed). -/
structure DomState where
  processed : List Nat
  tracked : List Nat
deriving DecidableEq, Repr

/-- The static shape of the page as `injectButtons` sees it: the affordances
`findApplyButtons()` returns (a set, in iteration order) and the container
`findInjectionContainer` resolves for each (`none` when even the parent is
absent).  Injected controls never match the apply selectors or the apply
text fallback, so a scan does not change this shape. -/
structure PageDoc where
  found : List Nat
  container : Nat → Option Nat

/-- The body of the `applyButtons.forEach` callback of `injectButtons` for a
single affordance: skip if marked, resolve the container, skip (but mark)
if the container already holds a control, otherwise insert one control and
mark.  Returns the new state and how many controls were inserted. -/
def injectStep (doc : PageDoc) (s : DomState) (b : Nat) : DomState × Nat :=
  if b ∈ s.processed then (s, 0)
  else
    match doc.container b with
    | none => (s, 0)
    | some c =>
      if c ∈ s.tracked then ({ s with processed := s.processed ++ [b] }, 0)
      else ({ processed := s.processed ++ [b], tracked := s.tracked ++ [c] }, 1)

/-- The `forEach` loop of `injectButtons` over the found affordances. -/
def injectLoop (doc : PageDoc) (bs : List Nat) (s : DomState) (n : Nat) :
    DomState × Nat :=
  match bs with
  | [] => (s, n)
  | b :: rest =>
    let r := injectStep doc s b
    injectLoop doc rest r.1 (n + r.2)

/-- One `injectButtons()` scan (the body of its animation-frame callback):
process every found affordance, returning the resulting DOM state and the
number of controls inserted. -/
def injectButtons (doc : PageDoc) (s : DomState) : DomState × Nat :=
  injectLoop doc doc.found s 0

/-- A document on which no selector matches anything. -/
def blankDoc : Document := { query := fun _ => none }

/-- A document whose first title selector matches a heading. -/
def richDoc : Document :=
  { query := fun sel =>
      if sel = ".job-details-jobs-unified-top-card__job-title h1" then
        some ("Software Engineer")
      else none }

/-- A plain job-view address with no query string. -/
def homeLoc : Location :=
  { href := "https://www.linkedin.com/jobs/view/123/", params := [] }

/-- A 201-character description, one character past the truncation cutoff. -/
def longDescription : String := String.mk (List.replicate 201 'a')

/-- A search-results address carrying a job identifier among other query
parameters. -/
def locP : Location :=
  { href := "https://www.linkedin.com/jobs/search/?currentJobId=4242&x=1",
    params := [("currentJobId", "4242"), ("x", "1")] }

/-- The same job identifier as `locP` under different other parameters. -/
def locQ : Location :=
  { href := "https://www.linkedin.com/jobs/search/?y=2&currentJobId=4242",
    params := [("y", "2"), ("currentJobId", "4242")] }

/-- An address whose `currentJobId` parameter is present but empty. -/
def cexLocA : Location :=
  { href := "https://www.linkedin.com/jobs/search/?currentJobId=&p=1",
    params := [("currentJobId", ""), ("p", "1")] }

/-- A different address whose `currentJobId` parameter is also present but
empty. -/
def cexLocB : Location :=
  { href := "https://www.linkedin.com/jobs/collections/?currentJobId=&p=1",
    params := [("currentJobId", ""), ("p", "1")] }

/-- A page on which two distinct visible apply affordances resolve to the
same insertion container. -/
def cexDoc : PageDoc :=
  { found := [1, 2], container := fun _ => some 10 }

/-- A DOM with no processed markers and no injected controls. -/
def emptyDom : DomState := { processed := [], tracked := [] }

/-- The control after a first click with no API URL configured: the warning
feedback armed a 2500 ms revert timer that nothing ever cancels. -/
def staleWarningButton : ButtonState :=
  (trackJob ("") richDoc homeLoc FetchOutcome.networkError createButton).button

/-- The same control after a second click, now with the URL configured and
an OK response: it is in the success state while the first click's warning
revert timer is still pending. -/
def staleSuccessButton : ButtonState :=
  (trackJob ("http://localhost:8000") richDoc homeLoc
    (FetchOutcome.response true none) staleWarningButton).button

/-- Character count of a string prefix. -/
theorem length_take_eq (s : String) (n : Nat) :
    (s.take n).length = min n s.length := by
  rw [String.take_eq]
  simp [List.length_take, ← String.length_data]

/-- C1: a scraped description longer than 200 characters is truncated to
exactly its first 200 characters followed by one ellipsis character, 201
characters in total; a description of at most 200 characters is returned
unchanged. -/
theorem truncateDescription_spec (s : String) :
    (s.length > 200 →
      truncateDescription s = s.take 200 ++ "…" ∧
      (truncateDescription s).length = 201)
    ∧ (s.length ≤ 200 → truncateDescription s = s) := by
  constructor
  · intro h
    have he : truncateDescription s = s.take 200 ++ "…" := by
      unfold truncateDescription
      rw [if_pos h]
    refine ⟨he, ?_⟩
    rw [he, String.length_append, length_take_eq]
    have h1 : min 200 s.length = 200 := by omega
    have h2 : ("…" : String).length = 1 := by decide
    omega
  · intro h
    unfold truncateDescription
    rw [if_neg (by omega)]

set_option maxRecDepth 4096 in
/-- C1 witness: the 201-character description is truncated to 201 characters
of content-plus-ellipsis. -/
theorem truncateDescription_spec_witness :
    longDescription.length > 200
    ∧ (truncateDescription longDescription = longDescription.take 200 ++ "…"
       ∧ (truncateDescription longDescription).length = 201) :=
  ⟨by decide, (truncateDescription_spec longDescription).1 (by decide)⟩

/-- C5: when no company selector matches, the scraped company is the
sentinel "Unknown Company"; when no description selector matches, the
scraped description is the empty string. -/
theorem scrapeJobData_missing_fields (d : Document) (loc : Location) :
    (queryChain d companySelectors = none →
      (scrapeJobData d loc).company = "Unknown Company")
    ∧ (queryChain d descriptionSelectors = none →
      (scrapeJobData d loc).description = "") := by
  constructor
  · intro h
    simp [scrapeJobData, h]
  · intro h
    simp [scrapeJobData, h, truncateDescription]

/-- C5 witness: on a document matching nothing, company and description get
their defaults. -/
theorem scrapeJobData_missing_fields_witness :
    queryChain blankDoc companySelectors = none
    ∧ (scrapeJobData blankDoc homeLoc).company = "Unknown Company"
    ∧ queryChain blankDoc descriptionSelectors = none
    ∧ (scrapeJobData blankDoc homeLoc).description = "" :=
  ⟨rfl, (scrapeJobData_missing_fields blankDoc homeLoc).1 rfl, rfl,
   (scrapeJobData_missing_fields blankDoc homeLoc).2 rfl⟩

/-- C4 counterexample: with `currentJobId` present but carrying the empty
value, the code falls back to query-string stripping, so two addresses
with the same (empty) identifier derive different urls, and the derived
url is not the synthesized deep link — refuting, as stated, both that the
derived url is a function of the identifier alone and that stripping
applies only when the identifier is absent. -/
theorem scrapeUrl_empty_id_counterexample :
    urlParamsGet cexLocA.params ("currentJobId") = some ("")
    ∧ urlParamsGet cexLocB.params ("currentJobId") = some ("")
    ∧ scrapeUrl cexLocA ≠ scrapeUrl cexLocB
    ∧ scrapeUrl cexLocA ≠ jobsViewUrl ("") := by
  refine ⟨rfl, rfl, ?_, ?_⟩ <;> decide

/-- C4 amended: when the `currentJobId` parameter carries a non-empty
identifier, the derived url is the canonical deep link determined by that
identifier alone (stable across addresses sharing the identifier); when
the parameter is absent — or present but empty — the derived url is the
query-stripped address. -/
theorem scrapeUrl_canonical (l l' : Location) (jobId : String)
    (h : urlParamsGet l.params ("currentJobId") = some jobId)
    (h' : urlParamsGet l'.params ("currentJobId") = some jobId)
    (hne : jobId ≠ "") :
    scrapeUrl l = jobsViewUrl jobId
    ∧ scrapeUrl l = scrapeUrl l'
    ∧ (∀ m : Location, urlParamsGet m.params ("currentJobId") = none →
        scrapeUrl m = stripQuery m.href)
    ∧ (∀ m : Location, urlParamsGet m.params ("currentJobId") = some ("") →
        scrapeUrl m = stripQuery m.href) := by
  have key : ∀ m : Location,
      urlParamsGet m.params ("currentJobId") = some jobId →
      scrapeUrl m = jobsViewUrl jobId := by
    intro m hm
    simp [scrapeUrl, hm, hne]
  refine ⟨key l h, (key l h).trans (key l' h').symm, ?_, ?_⟩
  · intro m hm
    simp [scrapeUrl, hm]
  · intro m hm
    simp [scrapeUrl, hm]

/-- The token passed to `classList.add` is in the resulting class list. -/
theorem mem_classListAdd (cs : List String) (c : String) :
    c ∈ classListAdd cs c := by
  unfold classListAdd
  split
  · assumption
  · simp

/-- Feedback always leaves its `jt-` class on the control. -/
theorem feedback_class_mem (b : ButtonState) (text : String)
    (ty : FeedbackType) :
    ("jt-" ++ ty.str) ∈ (showFeedback b text ty).1.classes := by
  by_cases h : ty.isSuccess
  · simpa [showFeedback, h] using mem_classListAdd b.classes ("jt-" ++ ty.str)
  · simpa [showFeedback, h] using mem_classListAdd b.classes ("jt-" ++ ty.str)

/-- C2: a document on which no title selector matches scrapes to the
sentinel title "Unknown Position", and any click whose scraped title is
empty or the sentinel issues no network call and shows a warning on the
control. -/
theorem scrape_title_guard (d : Document) (loc : Location) :
    (queryChain d titleSelectors = none →
      (scrapeJobData d loc).job_title = "Unknown Position")
    ∧ (∀ (apiUrl : String) (fetch : FetchOutcome) (b : ButtonState),
        (scrapeJobData d loc).job_title = "" ∨
          (scrapeJobData d loc).job_title = "Unknown Position" →
        (trackJob apiUrl d loc fetch b).posted = none
        ∧ "jt-warning" ∈ (trackJob apiUrl d loc fetch b).button.classes) := by
  constructor
  · intro h
    simp [scrapeJobData, h]
  · intro apiUrl fetch b hg
    by_cases happ : apiUrl = ""
    · subst happ
      refine ⟨rfl, ?_⟩
      have he : ("jt-warning" : String) = "jt-" ++ FeedbackType.warning.str := rfl
      rw [he]
      exact feedback_class_mem b ("⚙️ Set API URL") FeedbackType.warning
    · constructor
      · simp only [trackJob]
        rw [if_neg happ, if_pos hg]
      · have he : ("jt-warning" : String) = "jt-" ++ FeedbackType.warning.str := rfl
        have hb : (trackJob apiUrl d loc fetch b).button
            = (showFeedback b ("⚠️ Can\u0027t read job") FeedbackType.warning).1 := by
          simp only [trackJob]
          rw [if_neg happ, if_pos hg]
        rw [hb, he]
        exact feedback_class_mem b ("⚠️ Can\u0027t read job") FeedbackType.warning

/-- C2 witness: on a blank document the title is the sentinel, and a click
(here with an unconfigured URL and any fetch outcome) posts nothing and
shows a warning. -/
theorem scrape_title_guard_witness :
    queryChain blankDoc titleSelectors = none
    ∧ (scrapeJobData blankDoc homeLoc).job_title = "Unknown Position"
    ∧ ((scrapeJobData blankDoc homeLoc).job_title = "" ∨
        (scrapeJobData blankDoc homeLoc).job_title = "Unknown Position")
    ∧ (trackJob ("") blankDoc homeLoc FetchOutcome.networkError
        createButton).posted = none
    ∧ "jt-warning" ∈ (trackJob ("") blankDoc homeLoc FetchOutcome.networkError
        createButton).button.classes := by
  refine ⟨rfl, (scrape_title_guard blankDoc homeLoc).1 rfl, Or.inr rfl, ?_, ?_⟩
  · exact ((scrape_title_guard blankDoc homeLoc).2 ("") FetchOutcome.networkError
      createButton (Or.inr rfl)).1
  · exact ((scrape_title_guard blankDoc homeLoc).2 ("") FetchOutcome.networkError
      createButton (Or.inr rfl)).2

/-- C3: with no (or an empty) stored base URL, a click posts nothing, puts
the configuration warning on the control, and schedules the 2500 ms revert
to the control's default label with the button re-enabled. -/
theorem trackJob_missing_url (stored : Option String) (d : Document)
    (loc : Location) (fetch : FetchOutcome) (b : ButtonState)
    (h : stored = none ∨ stored = some ("")) :
    (trackJob (getApiUrl stored) d loc fetch b).posted = none
    ∧ (trackJob (getApiUrl stored) d loc fetch b).button.label = "⚙️ Set API URL"
    ∧ "jt-warning" ∈ (trackJob (getApiUrl stored) d loc fetch b).button.classes
    ∧ ∃ rb : ButtonState,
        (trackJob (getApiUrl stored) d loc fetch b).revert = some (2500, rb)
        ∧ rb.label = origOrDefault b.originalHTML
        ∧ rb.disabled = false := by
  have hu : getApiUrl stored = "" := by
    rcases h with h | h <;> subst h <;> rfl
  rw [hu]
  refine ⟨rfl, rfl, ?_, ?_⟩
  · have he : ("jt-warning" : String) = "jt-" ++ FeedbackType.warning.str := rfl
    rw [he]
    exact feedback_class_mem b ("⚙️ Set API URL") FeedbackType.warning
  · exact ⟨_, rfl, rfl, rfl⟩

/-- C3 witness: with nothing stored, a click on a freshly created control
warns and schedules the revert to the default label. -/
theorem trackJob_missing_url_witness :
    (trackJob (getApiUrl none) blankDoc homeLoc FetchOutcome.networkError
      createButton).posted = none
    ∧ (trackJob (getApiUrl none) blankDoc homeLoc FetchOutcome.networkError
        createButton).button.label = "⚙️ Set API URL"
    ∧ "jt-warning" ∈ (trackJob (getApiUrl none) blankDoc homeLoc
        FetchOutcome.networkError createButton).button.classes
    ∧ ∃ rb : ButtonState,
        (trackJob (getApiUrl none) blankDoc homeLoc FetchOutcome.networkError
          createButton).revert = some (2500, rb)
        ∧ rb.label = origOrDefault createButton.originalHTML
        ∧ rb.disabled = false :=
  trackJob_missing_url none blankDoc homeLoc FetchOutcome.networkError
    createButton (Or.inl rfl)

/-- Firing a non-empty queue of stale reverts always leaves the control
enabled: every revert callback ends by setting `disabled = false`. -/
theorem firePending_cons_disabled (P : List FeedbackType) :
    ∀ (ty : FeedbackType) (b : ButtonState),
      (firePending (ty :: P) b).disabled = false := by
  induction P with
  | nil => intro ty b; rfl
  | cons ty2 rest ih => intro ty b; exact ih ty2 (revertFire ty b)

/-- C8 counterexample: `showFeedback` discards its `setTimeout` handle and
the script contains no `clearTimeout`, so a revert armed by an earlier
warning fires after a later success.  Concretely: a click with no URL
configured arms a warning revert and leaves the control enabled; a second
click with the URL set succeeds, putting the control in the success state,
disabled; when the stale warning revert then fires (its 2500 ms land after
the success) it acts on that control, re-enabling it and restoring the
idle label — a later transition out of the success state, refuting that
success is terminal for the control's lifetime. -/
theorem trackJob_success_stale_revert_counterexample :
    (trackJob ("") richDoc homeLoc FetchOutcome.networkError
        createButton).revert
      = some (2500, revertFire FeedbackType.warning staleWarningButton)
    ∧ staleSuccessButton.disabled = true
    ∧ staleSuccessButton.label = "✅ Tracked!"
    ∧ (revertFire FeedbackType.warning staleSuccessButton).disabled = false
    ∧ (revertFire FeedbackType.warning staleSuccessButton).label
      = defaultTrackLabel := by
  refine ⟨?_, ?_, ?_, ?_, ?_⟩ <;> decide

/-- C8 amended: after an HTTP-OK response the control enters the success
state — success label, marked tracked, button disabled — and the success
feedback schedules no revert timer of its own; the only later transitions
of a control are firings of revert timers armed by earlier warning or
error feedback (never cancelled), and the success state persists exactly
when no such stale timer is pending: firing an empty queue of pending
reverts leaves the control unchanged, while firing any non-empty queue
changes it (it re-enables the button). -/
theorem trackJob_success_terminal_amended (apiUrl : String) (d : Document)
    (loc : Location) (body : Option JsonObj) (b : ButtonState)
    (hurl : apiUrl ≠ "")
    (ht : (scrapeJobData d loc).job_title ≠ "")
    (hs : (scrapeJobData d loc).job_title ≠ "Unknown Position") :
    (trackJob apiUrl d loc (FetchOutcome.response true body) b).button.disabled
      = true
    ∧ (trackJob apiUrl d loc (FetchOutcome.response true body) b).button.label
      = "✅ Tracked!"
    ∧ (trackJob apiUrl d loc (FetchOutcome.response true body) b).button.tracked
      = true
    ∧ (trackJob apiUrl d loc (FetchOutcome.response true body) b).revert = none
    ∧ (trackJob apiUrl d loc (FetchOutcome.response true body) b).posted
      = some (apiUrl ++ "/api/jobs", scrapeJobData d loc)
    ∧ ∀ P : List FeedbackType,
        firePending P
            (trackJob apiUrl d loc (FetchOutcome.response true body) b).button
          = (trackJob apiUrl d loc (FetchOutcome.response true body) b).button
        ↔ P = [] := by
  have hg : ¬((scrapeJobData d loc).job_title = "" ∨
      (scrapeJobData d loc).job_title = "Unknown Position") := by
    rintro (h | h)
    · exact ht h
    · exact hs h
  have he : trackJob apiUrl d loc (FetchOutcome.response true body) b
      = { posted := some (apiUrl ++ "/api/jobs", scrapeJobData d loc),
          button :=
            { (showFeedback
                { b with disabled := true, originalText := some b.label,
                         label := "⏳ Saving..." }
                ("✅ Tracked!") FeedbackType.success).1 with tracked := true },
          revert :=
            (showFeedback
              { b with disabled := true, originalText := some b.label,
                       label := "⏳ Saving..." }
              ("✅ Tracked!") FeedbackType.success).2,
          logged := none } := by
    simp only [trackJob]
    rw [if_neg hurl, if_neg hg]
  have hbd : (trackJob apiUrl d loc
      (FetchOutcome.response true body) b).button.disabled = true := by
    rw [he]
    rfl
  refine ⟨hbd, ?_, ?_, ?_, ?_, ?_⟩
  · rw [he]
    rfl
  · rw [he]
  · rw [he]
    rfl
  · rw [he]
  · intro P
    constructor
    · intro hfix
      cases P with
      | nil => rfl
      | cons ty rest =>
        have hd := firePending_cons_disabled rest ty
          ((trackJob apiUrl d loc (FetchOutcome.response true body) b).button)
        rw [hfix, hbd] at hd
        cases hd
    · intro hP
      subst hP
      rfl

/-- C8 witness: on a scrapeable page with a configured URL, an OK response
and no pending stale revert, the control ends success-labelled, tracked,
disabled, schedules no revert, and firing the empty pending queue leaves
it in that state. -/
theorem trackJob_success_terminal_amended_witness :
    ("http://localhost:8000" : String) ≠ ""
    ∧ (scrapeJobData richDoc homeLoc).job_title ≠ ""
    ∧ (scrapeJobData richDoc homeLoc).job_title ≠ "Unknown Position"
    ∧ ((trackJob ("http://localhost:8000") richDoc homeLoc
          (FetchOutcome.response true (some [])) createButton).button.disabled
        = true
      ∧ (trackJob ("http://localhost:8000") richDoc homeLoc
          (FetchOutcome.response true (some [])) createButton).button.label
        = "✅ Tracked!"
      ∧ (trackJob ("http://localhost:8000") richDoc homeLoc
          (FetchOutcome.response true (some [])) createButton).button.tracked
        = true
      ∧ (trackJob ("http://localhost:8000") richDoc homeLoc
          (FetchOutcome.response true (some [])) createButton).revert = none
      ∧ (trackJob ("http://localhost:8000") richDoc homeLoc
          (FetchOutcome.response true (some [])) createButton).posted
        = some ("http://localhost:8000" ++ "/api/jobs",
            scrapeJobData richDoc homeLoc)
      ∧ firePending []
          (trackJob ("http://localhost:8000") richDoc homeLoc
            (FetchOutcome.response true (some [])) createButton).button
        = (trackJob ("http://localhost:8000") richDoc homeLoc
            (FetchOutcome.response true (some [])) createButton).button) := by
  have h := trackJob_success_terminal_amended ("http://localhost:8000")
    richDoc homeLoc (some []) createButton (by decide) (by decide) (by decide)
  exact ⟨by decide, by decide, by decide, h.1, h.2.1, h.2.2.1, h.2.2.2.1,
    h.2.2.2.2.1, (h.2.2.2.2.2 []).mpr rfl⟩

/-- C9: on a non-OK response the control shows the error state, the
best-effort decoded body is logged (a decode failure logs the empty
object), the POST was issued, and the scheduled 2500 ms revert re-enables
the control. -/
theorem trackJob_server_error (apiUrl : String) (d : Document)
    (loc : Location) (body : Option JsonObj) (b : ButtonState)
    (hurl : apiUrl ≠ "")
    (ht : (scrapeJobData d loc).job_title ≠ "")
    (hs : (scrapeJobData d loc).job_title ≠ "Unknown Position") :
    (trackJob apiUrl d loc (FetchOutcome.response false body) b).button.label
      = "❌ Failed"
    ∧ "jt-error" ∈ (trackJob apiUrl d loc
        (FetchOutcome.response false body) b).button.classes
    ∧ (trackJob apiUrl d loc (FetchOutcome.response false body) b).logged
      = some (body.getD [])
    ∧ (body = none →
        (trackJob apiUrl d loc (FetchOutcome.response false body) b).logged
        = some [])
    ∧ (trackJob apiUrl d loc (FetchOutcome.response false body) b).posted
      = some (apiUrl ++ "/api/jobs", scrapeJobData d loc)
    ∧ ∃ rb : ButtonState,
        (trackJob apiUrl d loc (FetchOutcome.response false body) b).revert
          = some (2500, rb)
        ∧ rb.disabled = false := by
  have hg : ¬((scrapeJobData d loc).job_title = "" ∨
      (scrapeJobData d loc).job_title = "Unknown Position") := by
    rintro (h | h)
    · exact ht h
    · exact hs h
  have he : trackJob apiUrl d loc (FetchOutcome.response false body) b
      = { posted := some (apiUrl ++ "/api/jobs", scrapeJobData d loc),
          button :=
            (showFeedback
              { b with disabled := true, originalText := some b.label,
                       label := "⏳ Saving..." }
              ("❌ Failed") FeedbackType.error).1,
          revert :=
            (showFeedback
              { b with disabled := true, originalText := some b.label,
                       label := "⏳ Saving..." }
              ("❌ Failed") FeedbackType.error).2,
          logged := some (body.getD []) } := by
    simp only [trackJob]
    rw [if_neg hurl, if_neg hg]
  rw [he]
  refine ⟨rfl, ?_, rfl, fun hb => by subst hb; rfl, rfl, ⟨_, rfl, rfl⟩⟩
  have hcl : ("jt-error" : String) = "jt-" ++ FeedbackType.error.str := rfl
  rw [hcl]
  exact feedback_class_mem _ ("❌ Failed") FeedbackType.error

/-- C9 witness: a 500 response whose body fails to decode logs the empty
object, shows the error state and schedules the re-enabling revert. -/
theorem trackJob_server_error_witness :
    ("http://localhost:8000" : String) ≠ ""
    ∧ (scrapeJobData richDoc homeLoc).job_title ≠ ""
    ∧ (scrapeJobData richDoc homeLoc).job_title ≠ "Unknown Position"
    ∧ ((trackJob ("http://localhost:8000") richDoc homeLoc
          (FetchOutcome.response false none) createButton).button.label
        = "❌ Failed"
      ∧ "jt-error" ∈ (trackJob ("http://localhost:8000") richDoc homeLoc
          (FetchOutcome.response false none) createButton).button.classes
      ∧ (trackJob ("http://localhost:8000") richDoc homeLoc
          (FetchOutcome.response false none) createButton).logged
        = some ((none : Option JsonObj).getD [])
      ∧ ((none : Option JsonObj) = none →
          (trackJob ("http://localhost:8000") richDoc homeLoc
            (FetchOutcome.response false none) createButton).logged
          = some [])
      ∧ (trackJob ("http://localhost:8000") richDoc homeLoc
          (FetchOutcome.response false none) createButton).posted
        = some ("http://localhost:8000" ++ "/api/jobs",
            scrapeJobData richDoc homeLoc)
      ∧ ∃ rb : ButtonState,
          (trackJob ("http://localhost:8000") richDoc homeLoc
            (FetchOutcome.response false none) createButton).revert
            = some (2500, rb)
          ∧ rb.disabled = false) :=
  ⟨by decide, by decide, by decide,
   trackJob_server_error ("http://localhost:8000") richDoc homeLoc
     none createButton (by decide) (by decide) (by decide)⟩

/-- C10: for a warning or error feedback, the control's disabled flag is set
to false synchronously inside `showFeedback` itself, and the scheduled
2500 ms revert also leaves it enabled — the control is clickable
immediately, not only after the revert. -/
theorem showFeedback_reenables (b : ButtonState) (text : String)
    (ty : FeedbackType) (h : ty ≠ FeedbackType.success) :
    (showFeedback b text ty).1.disabled = false
    ∧ ∃ rb : ButtonState,
        (showFeedback b text ty).2 = some (2500, rb) ∧ rb.disabled = false := by
  have hb : ty.isSuccess = false := by
    cases ty
    · exact absurd rfl h
    · rfl
    · rfl
  constructor
  · simp [showFeedback, hb]
  · simp only [showFeedback, hb, Bool.false_eq_true, if_false]
    exact ⟨_, rfl, rfl⟩

/-- C10 witness: an error feedback on a fresh control leaves it enabled now
and after the revert. -/
theorem showFeedback_reenables_witness :
    FeedbackType.error ≠ FeedbackType.success
    ∧ ((showFeedback createButton ("❌ Failed") FeedbackType.error).1.disabled
        = false
      ∧ ∃ rb : ButtonState,
          (showFeedback createButton ("❌ Failed") FeedbackType.error).2
            = some (2500, rb)
          ∧ rb.disabled = false) :=
  ⟨by decide,
   showFeedback_reenables createButton ("❌ Failed") FeedbackType.error
     (by decide)⟩

/-- Unfolding of one scan. -/
theorem injectButtons_eq (doc : PageDoc) (s : DomState) :
    injectButtons doc s = injectLoop doc doc.found s 0 := rfl

/-- One injector step keeps existing processed markers. -/
theorem injectStep_processed_mono (doc : PageDoc) (s : DomState) (b x : Nat)
    (h : x ∈ s.processed) : x ∈ (injectStep doc s b).1.processed := by
  unfold injectStep
  split
  · exact h
  · split
    · exact h
    · split
      · exact List.mem_append_left _ h
      · exact List.mem_append_left _ h

/-- One injector step keeps existing controls in place. -/
theorem injectStep_tracked_mono (doc : PageDoc) (s : DomState) (b c : Nat)
    (h : c ∈ s.tracked) : c ∈ (injectStep doc s b).1.tracked := by
  unfold injectStep
  split
  · exact h
  · split
    · exact h
    · split
      · exact h
      · exact List.mem_append_left _ h

/-- One injector step marks no affordance other than its own. -/
theorem injectStep_not_processed (doc : PageDoc) (s : DomState) (hd x : Nat)
    (hne : x ≠ hd) (hnp : x ∉ s.processed) :
    x ∉ (injectStep doc s hd).1.processed := by
  unfold injectStep
  split
  · exact hnp
  · split
    · exact hnp
    · split
      · intro hmem
        rcases List.mem_append.mp hmem with h | h
        · exact hnp h
        · exact hne (List.mem_singleton.mp h)
      · intro hmem
        rcases List.mem_append.mp hmem with h | h
        · exact hnp h
        · exact hne (List.mem_singleton.mp h)

/-- An affordance whose container resolves is processed by its own step. -/
theorem injectStep_processes (doc : PageDoc) (s : DomState) (b c : Nat)
    (hc : doc.container b = some c) : b ∈ (injectStep doc s b).1.processed := by
  unfold injectStep
  split
  · assumption
  · split
    · rename_i heq
      rw [hc] at heq
      cases heq
    · split
      · exact List.mem_append_right _ (List.mem_cons_self b [])
      · exact List.mem_append_right _ (List.mem_cons_self b [])

/-- Handling an unprocessed affordance with a resolved container leaves that
container holding a control. -/
theorem injectStep_tracks (doc : PageDoc) (s : DomState) (b c : Nat)
    (hc : doc.container b = some c) (hb : b ∉ s.processed) :
    c ∈ (injectStep doc s b).1.tracked := by
  unfold injectStep
  rw [if_neg hb]
  split
  · rename_i heq
    rw [hc] at heq
    cases heq
  · rename_i c2 heq
    rw [hc] at heq
    obtain rfl := Option.some.inj heq
    split
    · assumption
    · exact List.mem_append_right _ (List.mem_cons_self _ [])

/-- A marked or container-less affordance is skipped without any change. -/
theorem injectStep_skip (doc : PageDoc) (s : DomState) (b : Nat)
    (h : b ∈ s.processed ∨ doc.container b = none) :
    injectStep doc s b = (s, 0) := by
  unfold injectStep
  rcases h with h | h
  · rw [if_pos h]
  · rw [h]
    split <;> rfl

/-- A step never adds a control to a container that already holds one. -/
theorem injectStep_count_eq (doc : PageDoc) (s : DomState) (b c : Nat)
    (h : c ∈ s.tracked) :
    (injectStep doc s b).1.tracked.count c = s.tracked.count c := by
  unfold injectStep
  split
  · rfl
  · split
    · rfl
    · split
      · rfl
      · rename_i c2 heq ht
        have hne : c ≠ c2 := fun he => ht (he ▸ h)
        show (s.tracked ++ [c2]).count c = s.tracked.count c
        rw [List.count_append]
        simp [List.count_cons, hne]

/-- The scan loop keeps existing processed markers. -/
theorem injectLoop_processed_mono (doc : PageDoc) (bs : List Nat) (x : Nat) :
    ∀ (s : DomState) (n : Nat), x ∈ s.processed →
      x ∈ (injectLoop doc bs s n).1.processed := by
  induction bs with
  | nil => intro s n h; exact h
  | cons hd rest ih =>
    intro s n h
    simp only [injectLoop]
    exact ih _ _ (injectStep_processed_mono doc s hd x h)

/-- The scan loop keeps existing controls in place. -/
theorem injectLoop_tracked_mono (doc : PageDoc) (bs : List Nat) (c : Nat) :
    ∀ (s : DomState) (n : Nat), c ∈ s.tracked →
      c ∈ (injectLoop doc bs s n).1.tracked := by
  induction bs with
  | nil => intro s n h; exact h
  | cons hd rest ih =>
    intro s n h
    simp only [injectLoop]
    exact ih _ _ (injectStep_tracked_mono doc s hd c h)

/-- After the loop, every listed affordance with a resolved container is
marked processed. -/
theorem injectLoop_processes (doc : PageDoc) (bs : List Nat) (b c : Nat)
    (hc : doc.container b = some c) :
    ∀ (s : DomState) (n : Nat), b ∈ bs →
      b ∈ (injectLoop doc bs s n).1.processed := by
  induction bs with
  | nil => intro s n hb; cases hb
  | cons hd rest ih =>
    intro s n hb
    simp only [injectLoop]
    by_cases hbh : b = hd
    · subst hbh
      exact injectLoop_processed_mono doc rest b _ _
        (injectStep_processes doc s b c hc)
    · have hmem : b ∈ rest := by
        rcases List.mem_cons.mp hb with h | h
        · exact absurd h hbh
        · exact h
      exact ih _ _ hmem

/-- After the loop, the container of an unprocessed listed affordance holds
a control. -/
theorem injectLoop_tracks (doc : PageDoc) (bs : List Nat) (b c : Nat)
    (hc : doc.container b = some c) :
    ∀ (s : DomState) (n : Nat), b ∈ bs → b ∉ s.processed →
      c ∈ (injectLoop doc bs s n).1.tracked := by
  induction bs with
  | nil => intro s n hb _; cases hb
  | cons hd rest ih =>
    intro s n hb hp
    simp only [injectLoop]
    by_cases hbh : b = hd
    · subst hbh
      exact injectLoop_tracked_mono doc rest c _ _
        (injectStep_tracks doc s b c hc hp)
    · have hmem : b ∈ rest := by
        rcases List.mem_cons.mp hb with h | h
        · exact absurd h hbh
        · exact h
      exact ih _ _ hmem (injectStep_not_processed doc s hd b hbh hp)

/-- When every listed affordance is already marked or container-less, the
loop is the identity. -/
theorem injectLoop_noop (doc : PageDoc) (bs : List Nat) (s : DomState)
    (n : Nat) (h : ∀ b ∈ bs, b ∈ s.processed ∨ doc.container b = none) :
    injectLoop doc bs s n = (s, n) := by
  induction bs generalizing n with
  | nil => rfl
  | cons hd rest ih =>
    simp only [injectLoop]
    rw [injectStep_skip doc s hd (h hd (List.mem_cons_self hd rest))]
    exact ih _ (fun b hb => h b (List.mem_cons_of_mem hd hb))

/-- The loop never adds a control to a container that already holds one. -/
theorem injectLoop_count_eq (doc : PageDoc) (bs : List Nat) (c : Nat) :
    ∀ (s : DomState) (n : Nat), c ∈ s.tracked →
      (injectLoop doc bs s n).1.tracked.count c = s.tracked.count c := by
  induction bs with
  | nil => intro s n h; rfl
  | cons hd rest ih =>
    intro s n h
    simp only [injectLoop]
    rw [ih _ _ (injectStep_tracked_mono doc s hd c h),
      injectStep_count_eq doc s hd c h]

/-- A container holding no control ends the loop with at most one. -/
theorem injectLoop_count_le_one (doc : PageDoc) (bs : List Nat) (c : Nat) :
    ∀ (s : DomState) (n : Nat), c ∉ s.tracked →
      (injectLoop doc bs s n).1.tracked.count c ≤ 1 := by
  induction bs with
  | nil =>
    intro s n h
    have h0 : s.tracked.count c = 0 := List.count_eq_zero.mpr h
    simp only [injectLoop]
    omega
  | cons hd rest ih =>
    intro s n h
    simp only [injectLoop]
    unfold injectStep
    split
    · exact ih _ _ h
    · split
      · exact ih _ _ h
      · split
        · exact ih _ _ h
        · rename_i c2 heq ht
          by_cases hcc : c = c2
          · have hmem : c ∈ s.tracked ++ [c2] := by
              rw [hcc]
              exact List.mem_append_right _ (List.mem_cons_self c2 [])
            rw [injectLoop_count_eq doc rest c _ _ hmem]
            have h0 : s.tracked.count c = 0 := List.count_eq_zero.mpr h
            show (s.tracked ++ [c2]).count c ≤ 1
            rw [List.count_append, h0, hcc]
            simp [List.count_cons]
          · refine ih _ _ ?_
            intro hmem
            rcases List.mem_append.mp hmem with hm | hm
            · exact h hm
            · exact hcc (List.mem_singleton.mp hm)

/-- C6 counterexample: on a page with two qualifying (visible, unmarked)
affordances resolving to one shared container, the scan run twice inserts
one control in total — not one control per qualifying affordance. -/
theorem injectButtons_per_affordance_counterexample :
    cexDoc.found.length = 2
    ∧ (1 : Nat) ∈ cexDoc.found ∧ (2 : Nat) ∈ cexDoc.found
    ∧ (1 : Nat) ∉ emptyDom.processed ∧ (2 : Nat) ∉ emptyDom.processed
    ∧ (injectButtons cexDoc emptyDom).2
        + (injectButtons cexDoc (injectButtons cexDoc emptyDom).1).2 = 1 := by
  exact ⟨rfl, by decide, by decide, by decide, by decide, by decide⟩

/-- C6 amended: the scan is idempotent — run again on the unchanged document
it inserts nothing and changes nothing — and never double-inserts: starting
from a document without duplicated controls, no container ever holds two,
and each control-free container resolved by some qualifying (unmarked,
container-resolving) affordance receives exactly one control (one per such
container, not one per affordance when several share it). -/
theorem injectButtons_idempotent (doc : PageDoc) (s : DomState)
    (hnd : s.tracked.Nodup) :
    injectButtons doc (injectButtons doc s).1 = ((injectButtons doc s).1, 0)
    ∧ (injectButtons doc s).1.tracked.Nodup
    ∧ ∀ b c, b ∈ doc.found → doc.container b = some c → b ∉ s.processed →
        c ∉ s.tracked → (injectButtons doc s).1.tracked.count c = 1 := by
  refine ⟨?_, ?_, ?_⟩
  · rw [injectButtons_eq doc (injectButtons doc s).1]
    apply injectLoop_noop
    intro b hb
    cases hcont : doc.container b with
    | none => exact Or.inr rfl
    | some c =>
      exact Or.inl (injectLoop_processes doc doc.found b c hcont s 0 hb)
  · rw [List.nodup_iff_count_le_one]
    intro c
    by_cases h : c ∈ s.tracked
    · rw [injectButtons_eq, injectLoop_count_eq doc doc.found c s 0 h]
      exact List.nodup_iff_count_le_one.mp hnd c
    · rw [injectButtons_eq]
      exact injectLoop_count_le_one doc doc.found c s 0 h
  · intro b c hb hc hp htr
    have hmem : c ∈ (injectButtons doc s).1.tracked :=
      injectLoop_tracks doc doc.found b c hc s 0 hb hp
    have hle : (injectButtons doc s).1.tracked.count c ≤ 1 := by
      rw [injectButtons_eq]
      exact injectLoop_count_le_one doc doc.found c s 0 htr
    have hne : (injectButtons doc s).1.tracked.count c ≠ 0 := by
      intro h0
      exact (List.count_eq_zero.mp h0) hmem
    omega

/-- C6 witness: on the shared-container page the double scan is a no-op the
second time, keeps controls duplicate-free, and puts exactly one control
into the shared container. -/
theorem injectButtons_idempotent_witness :
    emptyDom.tracked.Nodup
    ∧ (1 : Nat) ∈ cexDoc.found
    ∧ cexDoc.container 1 = some 10
    ∧ (1 : Nat) ∉ emptyDom.processed
    ∧ (10 : Nat) ∉ emptyDom.tracked
    ∧ injectButtons cexDoc (injectButtons cexDoc emptyDom).1
        = ((injectButtons cexDoc emptyDom).1, 0)
    ∧ (injectButtons cexDoc emptyDom).1.tracked.Nodup
    ∧ (injectButtons cexDoc emptyDom).1.tracked.count 10 = 1 := by
  refine ⟨List.nodup_nil, by decide, rfl, by decide, by decide, ?_, ?_, ?_⟩
  · exact (injectButtons_idempotent cexDoc emptyDom List.nodup_nil).1
  · exact (injectButtons_idempotent cexDoc emptyDom List.nodup_nil).2.1
  · exact (injectButtons_idempotent cexDoc emptyDom List.nodup_nil).2.2 1 10
      (by decide) rfl (by decide) (by decide)

/-- C7: when two affordances resolve to the same container, one scan inserts
at most one control into that container and afterwards both affordances
carry the processed marker. -/
theorem injectButtons_shared_container (doc : PageDoc) (s : DomState)
    (b1 b2 c : Nat) (h1 : b1 ∈ doc.found) (h2 : b2 ∈ doc.found)
    (hc1 : doc.container b1 = some c) (hc2 : doc.container b2 = some c) :
    b1 ∈ (injectButtons doc s).1.processed
    ∧ b2 ∈ (injectButtons doc s).1.processed
    ∧ (injectButtons doc s).1.tracked.count c ≤ s.tracked.count c + 1 := by
  refine ⟨injectLoop_processes doc doc.found b1 c hc1 s 0 h1,
          injectLoop_processes doc doc.found b2 c hc2 s 0 h2, ?_⟩
  by_cases h : c ∈ s.tracked
  · rw [injectButtons_eq, injectLoop_count_eq doc doc.found c s 0 h]
    omega
  · rw [injectButtons_eq]
    have hle := injectLoop_count_le_one doc doc.found c s 0 h
    omega

/-- C7 witness: the two shared-container affordances both end marked and
their container gets exactly one control on top of zero. -/
theorem injectButtons_shared_container_witness :
    (1 : Nat) ∈ cexDoc.found ∧ (2 : Nat) ∈ cexDoc.found
    ∧ cexDoc.container 1 = some 10 ∧ cexDoc.container 2 = some 10
    ∧ (1 : Nat) ∈ (injectButtons cexDoc emptyDom).1.processed
    ∧ (2 : Nat) ∈ (injectButtons cexDoc emptyDom).1.processed
    ∧ (injectButtons cexDoc emptyDom).1.tracked.count 10
        ≤ emptyDom.tracked.count 10 + 1 := by
  refine ⟨by decide, by decide, rfl, rfl, ?_, ?_, ?_⟩
  · exact (injectButtons_shared_container cexDoc emptyDom 1 2 10
      (by decide) (by decide) rfl rfl).1
  · exact (injectButtons_shared_container cexDoc emptyDom 1 2 10
      (by decide) (by decide) rfl rfl).2.1
  · exact (injectButtons_shared_container cexDoc emptyDom 1 2 10
      (by decide) (by decide) rfl rfl).2.2

/-- C4 witness: two addresses sharing the identifier 4242 under different
other query parameters derive the same canonical deep link. -/
theorem scrapeUrl_canonical_witness :
    urlParamsGet locP.params ("currentJobId") = some ("4242")
    ∧ urlParamsGet locQ.params ("currentJobId") = some ("4242")
    ∧ ("4242" : String) ≠ ""
    ∧ scrapeUrl locP = jobsViewUrl ("4242")
    ∧ scrapeUrl locP = scrapeUrl locQ :=
  ⟨rfl, rfl, by decide,
   (scrapeUrl_canonical locP locQ ("4242") rfl rfl (by decide)).1,
   (scrapeUrl_canonical locP locQ ("4242") rfl rfl (by decide)).2.1⟩

end JobTracker
